import Mathlib

/-!
Shallow embedding of the raivault-server request router and cache subsystem
(src/index.js) together with theorems settling the specification claims.

JavaScript runtime values that flow through the handler (request bodies,
upstream responses, cache contents) are modelled by the `Js` type below.
External collaborators (the HTTP client library, the timestamp-mapping
module, JSON.parse/JSON.stringify) are modelled as black-box function
parameters; network outcomes are modelled as `Except`-valued oracles.
-/

/-- JSON-like runtime values handled by the proxy. -/
inductive Js where
  | null
  | bool (b : Bool)
  | str (s : String)
  | num (n : Int)
  | arr (elems : List Js)
  | obj (fields : List (String × Js))
deriving Repr, Inhabited

mutual
/-- Structural equality on `Js` values; agrees with JavaScript strict
equality on the primitive values (strings) that the code uses as cache
keys. -/
def Js.beq : Js → Js → Bool
  | .null, .null => true
  | .bool a, .bool b => a == b
  | .str a, .str b => a == b
  | .num a, .num b => a == b
  | .arr xs, .arr ys => Js.beqList xs ys
  | .obj xs, .obj ys => Js.beqFields xs ys
  | _, _ => false

/-- Pointwise `Js.beq` on lists. -/
def Js.beqList : List Js → List Js → Bool
  | [], [] => true
  | x :: xs, y :: ys => Js.beq x y && Js.beqList xs ys
  | _, _ => false

/-- Pointwise `Js.beq` on association lists. -/
def Js.beqFields : List (String × Js) → List (String × Js) → Bool
  | [], [] => true
  | (k₁, v₁) :: xs, (k₂, v₂) :: ys => k₁ == k₂ && Js.beq v₁ v₂ && Js.beqFields xs ys
  | _, _ => false
end

instance : BEq Js := ⟨Js.beq⟩

mutual
theorem Js.beq_iff : ∀ a b : Js, Js.beq a b = true ↔ a = b
  | .null, .null => by simp [Js.beq]
  | .bool a, .bool b => by simp [Js.beq]
  | .str a, .str b => by simp [Js.beq]
  | .num a, .num b => by simp [Js.beq]
  | .arr xs, .arr ys => by simp [Js.beq, Js.beqList_iff xs ys]
  | .obj xs, .obj ys => by simp [Js.beq, Js.beqFields_iff xs ys]
  | .null, .bool _ | .null, .str _ | .null, .num _ | .null, .arr _ | .null, .obj _ => by simp [Js.beq]
  | .bool _, .null | .bool _, .str _ | .bool _, .num _ | .bool _, .arr _ | .bool _, .obj _ => by simp [Js.beq]
  | .str _, .null | .str _, .bool _ | .str _, .num _ | .str _, .arr _ | .str _, .obj _ => by simp [Js.beq]
  | .num _, .null | .num _, .bool _ | .num _, .str _ | .num _, .arr _ | .num _, .obj _ => by simp [Js.beq]
  | .arr _, .null | .arr _, .bool _ | .arr _, .str _ | .arr _, .num _ | .arr _, .obj _ => by simp [Js.beq]
  | .obj _, .null | .obj _, .bool _ | .obj _, .str _ | .obj _, .num _ | .obj _, .arr _ => by simp [Js.beq]

theorem Js.beqList_iff : ∀ xs ys : List Js, Js.beqList xs ys = true ↔ xs = ys
  | [], [] => by simp [Js.beqList]
  | x :: xs, y :: ys => by simp [Js.beqList, Js.beq_iff x y, Js.beqList_iff xs ys]
  | [], _ :: _ => by simp [Js.beqList]
  | _ :: _, [] => by simp [Js.beqList]

theorem Js.beqFields_iff : ∀ xs ys : List (String × Js), Js.beqFields xs ys = true ↔ xs = ys
  | [], [] => by simp [Js.beqFields]
  | (k₁, v₁) :: xs, (k₂, v₂) :: ys => by
      simp [Js.beqFields, Js.beq_iff v₁ v₂, Js.beqFields_iff xs ys]
  | [], _ :: _ => by simp [Js.beqFields]
  | _ :: _, [] => by simp [Js.beqFields]
end

instance : DecidableEq Js := fun a b => decidable_of_iff (Js.beq a b = true) (Js.beq_iff a b)

instance : LawfulBEq Js where
  eq_of_beq h := (Js.beq_iff _ _).mp h
  rfl := (Js.beq_iff _ _).mpr rfl

/-- Truthiness of a JavaScript value (`if (x)`): null, false, the empty
string and 0 are falsy; arrays and objects are always truthy. -/
def jsTruthy : Js → Bool
  | .null => false
  | .bool b => b
  | .str s => !s.isEmpty
  | .num n => n != 0
  | .arr _ => true
  | .obj _ => true

/-- Truthiness of an optional value, where `none` models the absent
(undefined) property. -/
def optTruthy : Option Js → Bool
  | some j => jsTruthy j
  | none => false

/-- Truthiness of the `.length` property of a value: only strings and
arrays carry a length; on every other value `.length` is undefined and
hence falsy. -/
def jsLenTruthy : Js → Bool
  | .str s => !s.isEmpty
  | .arr xs => !xs.isEmpty
  | _ => false

/-- Property lookup `j[k]` on a JavaScript value: defined on objects
(first binding wins), undefined (`none`) elsewhere. -/
def jget (j : Js) (k : String) : Option Js :=
  match j with
  | .obj fs => (fs.find? (fun f => f.1 == k)).map (fun f => f.2)
  | _ => none

/-- Rendering of a value inside a template literal, as in the rejection
message of src/index.js line 63. Primitive values are rendered as in
JavaScript; arrays and objects are rendered approximately (no claim
depends on their rendering). -/
def jsDisplay : Option Js → String
  | none => "undefined"
  | some .null => "null"
  | some (.bool b) => if b then "true" else "false"
  | some (.str s) => s
  | some (.num n) => toString n
  | some (.arr _) => "[array]"
  | some (.obj _) => "[object Object]"

/-- Evaluation of the cache-hit test `v && v.length` of src/index.js
lines 83 and 92, where the scrutinee is the result of `getCache` and
`none` models the null / missing result. -/
def cacheHitTruthy : Option Js → Bool
  | some j => jsTruthy j && jsLenTruthy j
  | none => false

/-! ## Cache backends (src/index.js lines 157–180) -/

/-- Entry of the in-memory work cache `workCache`: src/index.js line 177
pushes objects of shape `{hash, work}`. -/
structure Entry where
  hash : Js
  work : Js
deriving Repr, DecidableEq

/-- In-memory `getCache` (src/index.js lines 171–174): `Array.find`
returns the FIRST entry whose hash compares strictly equal to the key;
its work value is returned, and null (here `none`) on a miss. -/
def getCacheMem (c : List Entry) (h : Js) : Option Js :=
  (c.find? (fun w => w.hash == h)).map (fun w => w.work)

/-- Truthiness of the optional third `time` argument of `putCache`
(`if (time) return`): absent and 0 are falsy. -/
def ttlTruthy : Option Nat → Bool
  | some t => t != 0
  | none => false

/-- In-memory `putCache`, INTENDED variant (src/index.js lines 175–179
with the capacity configuration of line 15 in force): a truthy `time`
argument aborts without storing; otherwise the entry is pushed at the
back, and if the length has reached the capacity the oldest (front)
entry is shifted off. In the shipped source the capacity constant
`memoryCacheLength` is declared only in the commented-out line 15, so
the line-178 comparison actually throws — see `putCacheMemShipped` for
the shipped behaviour. This variant (capacity as the parameter `cap`)
coincides with the shipped one in the truthy-TTL early return (which
exits before the broken line) and in the pushed entry itself. -/
def putCacheMem (cap : Nat) (c : List Entry) (h w : Js) (time : Option Nat) : List Entry :=
  if ttlTruthy time then c
  else
    let c₁ := c ++ [⟨h, w⟩]
    if cap ≤ c₁.length then c₁.tail else c₁

/-- In-memory `putCache`, SHIPPED behaviour (src/index.js lines 175–179
as shipped, with line 15 commented out): a truthy `time` argument
returns early, leaving the cache unchanged and throwing nothing;
otherwise the push of line 177 completes, and then the line-178
comparison `workCache.length >= memoryCacheLength` reads the undeclared
identifier `memoryCacheLength` and throws a ReferenceError — so the
`shift()` eviction never executes. The result is the cache state after
the call together with the error thrown, if any. -/
def putCacheMemShipped (c : List Entry) (h w : Js) (time : Option Nat) :
    List Entry × Option String :=
  if ttlTruthy time then (c, Option.none)
  else (c ++ [Entry.mk h w], some "ReferenceError: memoryCacheLength is not defined")

/-- Folding a sequence of no-TTL shipped insertions into the in-memory
cache, starting from a given state. Each insertion belongs to its own
request, whose handler catches the thrown ReferenceError (the `.catch`
of src/index.js lines 122 and 149), while the mutated module-level
`workCache` array persists across requests. -/
def runPutsShipped (c : List Entry) (ops : List (Js × Js)) : List Entry :=
  ops.foldl (fun acc op => (putCacheMemShipped acc op.1 op.2 Option.none).1) c

/-- Modelled redis store: each key maps to a value together with the
expiry (in seconds) passed to a completed `SET ... EX`. -/
def RedisStore : Type := Js → Option (Js × Nat)

/-- Redis `putCache`, SHIPPED behaviour (src/index.js lines 167–169 as
shipped, with line 14 commented out): the expression
`time || redisCacheTime` short-circuits on a truthy `time`, so the SET
completes with that expiry; on a falsy `time` it evaluates the
undeclared identifier `redisCacheTime` and throws a ReferenceError
BEFORE `cacheClient.set` runs, so nothing is stored. (Redis mode cannot
even reach this point in the shipped source: line 160 reads the equally
commented-out `redisCacheUrl` and crashes at startup.) The result is
the store after the call together with the error thrown, if any. -/
def putCacheRedisShipped (s : RedisStore) (h w : Js) (time : Option Nat) :
    RedisStore × Option String :=
  if ttlTruthy time then
    (fun k => if k == h then some (w, time.getD 0) else s k, Option.none)
  else (s, some "ReferenceError: redisCacheTime is not defined")

/-- Empty redis store. -/
def emptyRedis : RedisStore := fun _ => none

/-! ## The POST /api/node-api handler (src/index.js lines 44–150) -/

/-- Startup configuration of the proxy (src/index.js lines 6–12 and the
DPoW environment variables of lines 107–111). -/
structure Config where
  nanoNodeUrl : String
  nanoWorkNodeUrl : String
  useDPoW : Bool
  dpowUrl : String
  dpowUser : String
  dpowKey : String

/-- Inbound POST request: the parsed JSON body and the optional `node`
query parameter. -/
structure Req where
  body : Js
  queryNode : Option String

/-- Network oracle: the outcome the single upstream `request` call would
produce, and the outcome the single DPoW `request` call would produce.
`Except.error` models a rejected promise carrying `err.toString()`. -/
structure Net where
  upstream : Except String Js
  dpow : Except String Js

/-- External black-box collaborators: the timestamp-mapping module
(`timestamps.mapAccountHistory`, `mapBlocksInfo`, `mapPending`) and the
JSON runtime functions, all treated as black-box transforms. -/
structure Extern where
  mapAccountHistory : Js → Js
  mapBlocksInfo : Option Js → Js → Js
  mapPending : Js → Js
  stringify : Js → String
  parse : Js → Js

/-- Outbound network call issued by a handler run. -/
inductive Call where
  | upstream (url : String) (body : Js)
  | dpow (url user key : String) (hash : Js) (timeout : Nat)
  | recommended (url : String)
deriving Repr, DecidableEq

/-- Response sent to the HTTP client: `res.json`, `res.status(..).json`,
or no response at all. -/
inductive Resp where
  | json (body : Js)
  | error (status : Nat) (body : Js)
  | none
deriving Repr, DecidableEq

/-- Observable outcome of one handler run: the response sent, the cache
writes performed (key, value, optional TTL argument) in order, and the
network calls issued in order. -/
structure Outcome where
  resp : Resp
  writes : List (Js × Js × Option Nat)
  calls : List Call
deriving Repr, DecidableEq

/-- Fixed action allowlist of src/index.js lines 45–61. -/
def allowedActions : List String :=
  [ "account_history", "account_info", "accounts_frontiers", "accounts_balances",
    "accounts_pending", "block", "blocks", "block_count", "blocks_info",
    "delegators_count", "pending", "process", "representatives_online",
    "validate_account_number", "work_generate" ]

/-- Allowlist check of src/index.js line 62
(`!req.body.action || allowedActions.indexOf(req.body.action) === -1`):
the request survives exactly when `body.action` is a truthy string that
occurs in the allowlist (a non-string action never matches `indexOf`
under strict equality, and a falsy action is rejected outright). Returns
the action string on success. -/
def allowedActionOf (body : Js) : Option String :=
  match jget body "action" with
  | some (.str a) => if !a.isEmpty && allowedActions.contains a then some a else none
  | _ => none

/-- Overriding condition of src/index.js line 73:
`req.query && req.query.node && req.query.node.length > 4`. -/
def overrideOf : Option String → Bool
  | some s => !s.isEmpty && decide (s.length > 4)
  | none => false

/-- Node URL after the override check of src/index.js lines 69–76. -/
def nodeUrlOf (cfg : Config) : Option String → String
  | some s => if !s.isEmpty && decide (s.length > 4) then s else cfg.nanoNodeUrl
  | none => cfg.nanoNodeUrl

/-- Representative cache key of src/index.js line 70. -/
def repCacheKey : Js := Js.str "online-representatives"

/-- Timestamp-enrichment stage of src/index.js lines 137–146, applied to
the upstream response keyed on the original action. -/
def enrich (ext : Extern) (a : String) (hashes : Option Js) (r : Js) : Js :=
  let r₁ := if a == "account_history" then ext.mapAccountHistory r else r
  let r₂ := if a == "blocks_info" then ext.mapBlocksInfo hashes r₁ else r₁
  if a == "pending" then ext.mapPending r₂ else r₂

/-- Rejection outcome of src/index.js line 63. -/
def rejectOutcome (body : Js) : Outcome :=
  { resp := .error 500 (.obj [("error",
      .str ("Action " ++ jsDisplay (jget body "action") ++ " not allowed"))])
    writes := []
    calls := [] }

/-- Missing-hash outcome of src/index.js line 80. -/
def hashErrorOutcome : Outcome :=
  { resp := .error 500 (.obj [("error", .str "Requires valid hash to perform work")])
    writes := []
    calls := [] }

/-- Tail of the handler once the cache checks have fallen through
(src/index.js lines 98–149): re-route work/representative requests to
the work node, then either the DPoW branch (lines 104–123) or the
upstream proxy with write-back and enrichment (lines 126–149). -/
def forwardRequest (cfg : Config) (net : Net) (ext : Extern) (req : Req) (a : String)
    (nodeOverride : Bool) (nodeUrl : String)
    (workRequest representativeRequest : Bool) : Outcome :=
  let nodeUrl := if (workRequest || representativeRequest) && !nodeOverride
                 then cfg.nanoWorkNodeUrl else nodeUrl
  let hashJs := (jget req.body "hash").getD Js.null
  if workRequest && cfg.useDPoW then
    let call := Call.dpow cfg.dpowUrl cfg.dpowUser cfg.dpowKey hashJs 10
    match net.dpow with
    | .ok dpowRes =>
        { resp := .json dpowRes
          writes := if jsTruthy dpowRes && optTruthy (jget dpowRes "work")
                    then [(hashJs, (jget dpowRes "work").getD Js.null, Option.none)] else []
          calls := [call] }
    | .error e => { resp := .error 500 (.str e), writes := [], calls := [call] }
  else
    match net.upstream with
    | .ok proxyRes =>
        { resp := .json (enrich ext a (jget req.body "hashes") proxyRes)
          writes :=
            if jsTruthy proxyRes && !nodeOverride then
              (if workRequest && optTruthy (jget proxyRes "work")
               then [(hashJs, (jget proxyRes "work").getD Js.null, Option.none)] else [])
              ++ (if representativeRequest && optTruthy (jget proxyRes "representatives")
                  then [(repCacheKey, Js.str (ext.stringify proxyRes), some (5 * 60))] else [])
            else []
          calls := [Call.upstream nodeUrl req.body] }
    | .error e =>
        { resp := .error 500 (.str e), writes := [], calls := [Call.upstream nodeUrl req.body] }

/-- POST /api/node-api handler (src/index.js lines 44–150), parameterised
over the configuration, the cache-read function `get` (the active
active backend), the network oracle and the external transforms.
It returns the response sent together with the cache writes and network
calls performed. -/
def handleNodeApi (cfg : Config) (get : Js → Option Js) (net : Net) (ext : Extern)
    (req : Req) : Outcome :=
  match allowedActionOf req.body with
  | Option.none => rejectOutcome req.body
  | some a =>
    let nodeOverride := overrideOf req.queryNode
    let nodeUrl := nodeUrlOf cfg req.queryNode
    if a == "work_generate" && !nodeOverride then
      match jget req.body "hash" with
      | Option.none => hashErrorOutcome
      | some hj =>
        if !jsTruthy hj then hashErrorOutcome
        else if cacheHitTruthy (get hj) then
          { resp := .json (.obj [("work", (get hj).getD Js.null)]), writes := [], calls := [] }
        else forwardRequest cfg net ext req a nodeOverride nodeUrl true false
    else if a == "representatives_online" && !nodeOverride then
      if cacheHitTruthy (get repCacheKey) then
        { resp := .json (ext.parse ((get repCacheKey).getD Js.null)), writes := [], calls := [] }
      else forwardRequest cfg net ext req a nodeOverride nodeUrl false true
    else forwardRequest cfg net ext req a nodeOverride nodeUrl false false

/-! ## The GET /api/recommended-representatives handler
(src/index.js lines 34–41 and 182–192) -/

/-- Directory-service URL of src/index.js line 185. -/
def recommendedUrl : String := "https://mynano.ninja/api/accounts/verified"

/-- GET /api/recommended-representatives handler (src/index.js lines
34–41). On a truthy cached value the parsed value is sent with
`res.json`. Otherwise the handler runs `getRecommendedReps` (lines
182–192): the directory service is fetched, on success the stringified
result is cached for 45 minutes — but the handler merely RETURNS the
fetched value, whose value Express discards, so no HTTP response is sent
on this path (and none on fetch failure either, where the awaited
rejection escapes the handler). -/
def handleRecommendedReps (get : Js → Option Js) (fetch : Except String Js)
    (ext : Extern) : Outcome :=
  let reps := get (Js.str "recommended-reps")
  if optTruthy reps then
    { resp := .json (ext.parse (reps.getD Js.null)), writes := [], calls := [] }
  else
    match fetch with
    | .ok r =>
        { resp := .none
          writes := [(Js.str "recommended-reps", Js.str (ext.stringify r), some (45 * 60))]
          calls := [Call.recommended recommendedUrl] }
    | .error _ => { resp := .none, writes := [], calls := [Call.recommended recommendedUrl] }

/-! ## Helper lemmas -/

theorem find?_append_of_all_false {p : Entry → Bool} {c : List Entry}
    (h : ∀ e ∈ c, p e = false) (l : List Entry) : (c ++ l).find? p = l.find? p := by
  induction c with
  | nil => simp
  | cons e c ih =>
      have he : p e = false := h e (by simp)
      simp only [List.cons_append, List.find?, he]
      exact ih (fun x hx => h x (by simp [hx]))

theorem putCacheMemShipped_none (c : List Entry) (h w : Js) :
    putCacheMemShipped c h w Option.none
      = (c ++ [Entry.mk h w], some "ReferenceError: memoryCacheLength is not defined") := by
  simp [putCacheMemShipped, ttlTruthy]

theorem runPutsShipped_length : ∀ (ops : List (Js × Js)) (c : List Entry),
    (runPutsShipped c ops).length = c.length + ops.length
  | [], c => by simp [runPutsShipped]
  | op :: ops, c => by
      have ih := runPutsShipped_length ops (c ++ [Entry.mk op.1 op.2])
      simp only [runPutsShipped, List.foldl_cons, putCacheMemShipped_none] at ih ⊢
      rw [ih]
      simp
      omega

/-! ## C5 — the shipped in-memory work cache is unbounded -/

/-- C5 (code bug): the bounded-FIFO claim is the source comment of
src/index.js line 178 and the spec, but the shipped code cannot
enforce it — the capacity declaration of line 15 is commented out, so
after the push of line 177 the comparison of line 178 throws a
ReferenceError on the undeclared `memoryCacheLength` and the eviction
`shift()` never executes. Proved of the shipped behaviour: every no-TTL
insertion appends the entry and throws; a sequence of insertions from
the empty state grows the cache by exactly one entry per insertion with
no eviction ever; in particular 801 insertions leave 801 entries,
exceeding the commented-out capacity of 800. -/
theorem mem_cache_unbounded_no_eviction :
    (∀ (c : List Entry) (h w : Js),
      putCacheMemShipped c h w Option.none
        = (c ++ [Entry.mk h w], some "ReferenceError: memoryCacheLength is not defined")) ∧
    (∀ ops : List (Js × Js), (runPutsShipped [] ops).length = ops.length) ∧
    800 < (runPutsShipped []
      (List.replicate 801 (Js.str "h", Js.str "w"))).length := by
  refine ⟨?_, ?_, ?_⟩
  · intro c h w
    exact putCacheMemShipped_none c h w
  · intro ops
    simp [runPutsShipped_length]
  · rw [runPutsShipped_length, List.length_nil, List.length_replicate]
    omega

/-! ## C3 — what a read returns after two writes to the same key -/

/-- C3 counterexample: in the in-memory backend, two successive no-TTL
`putCache` calls for the same hash followed by `getCache` return the
FIRST value, not the second — each shipped put appends its entry (before
throwing on the undeclared capacity constant) and `Array.find` picks the
oldest of the two accumulated entries, so the claimed write-replaces
invariant fails. -/
theorem mem_cache_second_put_not_visible :
    getCacheMem (runPutsShipped []
        [(Js.str "h", Js.str "w1"), (Js.str "h", Js.str "w2")]) (Js.str "h")
      = some (Js.str "w1") ∧
    some (Js.str "w1") ≠ some (Js.str "w2") := by decide

/-- C3 amended: a write does not replace in the in-memory backend —
each shipped no-TTL put appends a duplicate entry, and a read returns
the value of the FIRST (oldest) stored write for the key: from any cache
holding no entry for the hash, two successive putCache calls for that
hash followed by getCache return the first value. -/
theorem mem_cache_read_returns_first_write
    (c : List Entry) (h w₁ w₂ : Js)
    (hc : ∀ e ∈ c, (e.hash == h) = false) :
    getCacheMem (runPutsShipped c [(h, w₁), (h, w₂)]) h = some w₁ := by
  have hrun : runPutsShipped c [(h, w₁), (h, w₂)]
      = (c ++ [Entry.mk h w₁]) ++ [Entry.mk h w₂] := by
    simp [runPutsShipped, putCacheMemShipped, ttlTruthy]
  rw [hrun, getCacheMem, List.append_assoc, find?_append_of_all_false hc]
  simp [List.find?]

/-- Witness for `mem_cache_read_returns_first_write` on a concrete empty
starting cache. -/
theorem mem_cache_read_returns_first_write_witness :
    getCacheMem (runPutsShipped []
        [(Js.str "k", Js.str "v1"), (Js.str "k", Js.str "v2")]) (Js.str "k")
      = some (Js.str "v1") :=
  mem_cache_read_returns_first_write [] _ _ _ (by simp)

/-! ## C9 — TTL argument handling in the in-memory backend -/

/-- C9 counterexample: a `putCache` call on the in-memory backend that
supplies the TTL argument 0 DOES change the cache — `if (time) return`
tests truthiness and the number 0 is falsy, so the entry is stored. -/
theorem mem_cache_zero_ttl_stored :
    putCacheMem 800 [] (Js.str "h") (Js.str "w") (some 0) = [Entry.mk (Js.str "h") (Js.str "w")] ∧
    [Entry.mk (Js.str "h") (Js.str "w")] ≠ ([] : List Entry) := by decide

/-- C9 amended: every `putCache` call on the in-memory backend that
supplies a TRUTHY (nonzero) TTL argument leaves the cache contents
completely unchanged. -/
theorem mem_cache_truthy_ttl_noop (cap : Nat) (c : List Entry) (h w : Js) (t : Nat)
    (ht : t ≠ 0) : putCacheMem cap c h w (some t) = c := by
  simp [putCacheMem, ttlTruthy, ht]

/-- Witness for `mem_cache_truthy_ttl_noop` at the 5-minute TTL the code
actually passes. -/
theorem mem_cache_truthy_ttl_noop_witness :
    putCacheMem 800 [Entry.mk (Js.str "a") (Js.str "1")] (Js.str "h") (Js.str "w") (some 300)
      = [Entry.mk (Js.str "a") (Js.str "1")] :=
  mem_cache_truthy_ttl_noop 800 _ _ _ 300 (by decide)

/-! ## C4 — the redis work write-back stores nothing (counterexample part) -/

/-- C4 counterexample: at the exact input of the work write-back — a
falsy (absent) TTL argument — the shipped redis `putCache` stores
NOTHING: `time || redisCacheTime` evaluates the undeclared
`redisCacheTime` and throws before `cacheClient.set` runs, so after the
call the hash is still absent from the store. The claimed write of the
work value into the redis cache never happens (and redis mode cannot
even start, crashing on line 160). -/
theorem work_cache_redis_write_stores_nothing :
    (putCacheRedisShipped emptyRedis (Js.str "h") (Js.str "w") Option.none).1 (Js.str "h")
      = Option.none ∧
    (putCacheRedisShipped emptyRedis (Js.str "h") (Js.str "w") Option.none).2
      = some "ReferenceError: redisCacheTime is not defined" := by decide

/-! ## Reduction lemmas for the POST handler -/

theorem handleNodeApi_reject (cfg : Config) (get : Js → Option Js) (net : Net)
    (ext : Extern) (req : Req) (hA : allowedActionOf req.body = Option.none) :
    handleNodeApi cfg get net ext req = rejectOutcome req.body := by
  unfold handleNodeApi
  rw [hA]

theorem handleNodeApi_work_eq (cfg : Config) (get : Js → Option Js) (net : Net)
    (ext : Extern) (req : Req) (hj : Js)
    (hA : allowedActionOf req.body = some "work_generate")
    (hO : overrideOf req.queryNode = false)
    (hH : jget req.body "hash" = some hj)
    (hT : jsTruthy hj = true) :
    handleNodeApi cfg get net ext req =
      if cacheHitTruthy (get hj) then
        { resp := .json (.obj [("work", (get hj).getD Js.null)]), writes := [], calls := [] }
      else forwardRequest cfg net ext req "work_generate" false
        (nodeUrlOf cfg req.queryNode) true false := by
  unfold handleNodeApi
  rw [hA, hO, hH]
  simp [hT]

theorem handleNodeApi_reps_eq (cfg : Config) (get : Js → Option Js) (net : Net)
    (ext : Extern) (req : Req)
    (hA : allowedActionOf req.body = some "representatives_online")
    (hO : overrideOf req.queryNode = false) :
    handleNodeApi cfg get net ext req =
      if cacheHitTruthy (get repCacheKey) then
        { resp := .json (ext.parse ((get repCacheKey).getD Js.null)), writes := [], calls := [] }
      else forwardRequest cfg net ext req "representatives_online" false
        (nodeUrlOf cfg req.queryNode) false true := by
  unfold handleNodeApi
  rw [hA, hO]
  simp

theorem handleNodeApi_override_eq (cfg : Config) (get : Js → Option Js) (net : Net)
    (ext : Extern) (req : Req) (a : String)
    (hA : allowedActionOf req.body = some a)
    (hO : overrideOf req.queryNode = true) :
    handleNodeApi cfg get net ext req =
      forwardRequest cfg net ext req a true (nodeUrlOf cfg req.queryNode) false false := by
  unfold handleNodeApi
  rw [hA, hO]
  simp

theorem forwardRequest_calls_ne_nil (cfg : Config) (net : Net) (ext : Extern) (req : Req)
    (a : String) (o : Bool) (url : String) (w r : Bool) :
    (forwardRequest cfg net ext req a o url w r).calls ≠ [] := by
  unfold forwardRequest
  rcases net with ⟨u, d⟩
  by_cases h : (w && cfg.useDPoW) = true <;> simp only [h] <;> cases u <;> cases d <;> simp

/-! ## Concrete fixtures used by witnesses and counterexamples -/

/-- Sample startup configuration with DPoW disabled. -/
def sampleConfig : Config :=
  { nanoNodeUrl := "http://node", nanoWorkNodeUrl := "http://work", useDPoW := false,
    dpowUrl := "http://dpow", dpowUser := "user", dpowKey := "key" }

/-- Sample startup configuration with DPoW enabled. -/
def sampleConfigDpow : Config := { sampleConfig with useDPoW := true }

/-- Network oracle whose upstream answers with a work response. -/
def sampleNet : Net :=
  { upstream := .ok (Js.obj [("work", Js.str "cafe")]), dpow := .ok (Js.obj [("work", Js.str "beef")]) }

/-- Network oracle whose calls both fail. -/
def failingNet : Net := { upstream := .error "boom", dpow := .error "dpow down" }

/-- External transforms whose timestamp mappers tag their output, making
an applied enrichment observable. -/
def sampleExtern : Extern :=
  { mapAccountHistory := fun _ => Js.str "enriched-history"
    mapBlocksInfo := fun _ _ => Js.str "enriched-blocks"
    mapPending := fun _ => Js.str "enriched-pending"
    stringify := fun _ => "stringified"
    parse := fun j => j }

/-- Cache-read function of an empty cache. -/
def emptyGet : Js → Option Js := fun _ => Option.none

/-- Cache-read function answering every key with the same string. -/
def constGet (s : String) : Js → Option Js := fun _ => some (Js.str s)

/-! ## C6 — allowlist rejection happens before everything else -/

/-- C6: a POST /api/node-api request whose body action is missing, falsy
or not in the 15-action allowlist is answered with a status-500 error
object naming the rejected action; no cache write and no network call
happen, and the outcome does not depend on the cache contents at all
(no cache read influences it). -/
theorem disallowed_action_rejected_early
    (cfg : Config) (get get₂ : Js → Option Js) (net : Net) (ext : Extern) (req : Req)
    (hA : allowedActionOf req.body = Option.none) :
    (handleNodeApi cfg get net ext req).resp
      = Resp.error 500 (Js.obj [("error",
          Js.str ("Action " ++ jsDisplay (jget req.body "action") ++ " not allowed"))]) ∧
    (handleNodeApi cfg get net ext req).writes = [] ∧
    (handleNodeApi cfg get net ext req).calls = [] ∧
    handleNodeApi cfg get net ext req = handleNodeApi cfg get₂ net ext req := by
  rw [handleNodeApi_reject cfg get net ext req hA, handleNodeApi_reject cfg get₂ net ext req hA]
  exact ⟨rfl, rfl, rfl, rfl⟩

/-- Witness for `disallowed_action_rejected_early` on the action
`delete_account`. -/
theorem disallowed_action_rejected_early_witness :
    (handleNodeApi sampleConfig emptyGet sampleNet sampleExtern
        (Req.mk (Js.obj [("action", Js.str "delete_account")]) Option.none)).resp
      = Resp.error 500 (Js.obj [("error",
          Js.str ("Action " ++ jsDisplay (jget (Js.obj [("action", Js.str "delete_account")])
            "action") ++ " not allowed"))]) ∧
    (handleNodeApi sampleConfig emptyGet sampleNet sampleExtern
        (Req.mk (Js.obj [("action", Js.str "delete_account")]) Option.none)).writes = [] ∧
    (handleNodeApi sampleConfig emptyGet sampleNet sampleExtern
        (Req.mk (Js.obj [("action", Js.str "delete_account")]) Option.none)).calls = [] ∧
    handleNodeApi sampleConfig emptyGet sampleNet sampleExtern
        (Req.mk (Js.obj [("action", Js.str "delete_account")]) Option.none)
      = handleNodeApi sampleConfig (constGet "full") sampleNet sampleExtern
        (Req.mk (Js.obj [("action", Js.str "delete_account")]) Option.none) :=
  disallowed_action_rejected_early sampleConfig emptyGet (constGet "full") sampleNet
    sampleExtern _ (by decide)

/-! ## C7 — a cached work value short-circuits the request -/

/-- C7: a non-overridden work_generate request whose (truthy) hash has a
nonempty cached work value is answered with exactly the object
containing that cached value under the key work; no network call is
issued and no cache write happens, so the cache is left unchanged and
every repeated identical request is answered the same way until the
entry is evicted or expires. -/
theorem work_cache_hit_short_circuits
    (cfg : Config) (get : Js → Option Js) (net : Net) (ext : Extern) (req : Req)
    (hj : Js) (w : String)
    (hA : allowedActionOf req.body = some "work_generate")
    (hO : overrideOf req.queryNode = false)
    (hH : jget req.body "hash" = some hj)
    (hT : jsTruthy hj = true)
    (hG : get hj = some (Js.str w))
    (hw : w ≠ "") :
    handleNodeApi cfg get net ext req =
      { resp := Resp.json (Js.obj [("work", Js.str w)]), writes := [], calls := [] } := by
  rw [handleNodeApi_work_eq cfg get net ext req hj hA hO hH hT, hG]
  have hwe : w.isEmpty = false := by
    cases hbe : w.isEmpty with
    | false => rfl
    | true => exact absurd ((String.isEmpty_iff w).mp hbe) hw
  simp [cacheHitTruthy, jsTruthy, jsLenTruthy, hwe]

/-- Witness for `work_cache_hit_short_circuits` on a concrete cached
hash. -/
theorem work_cache_hit_short_circuits_witness :
    handleNodeApi sampleConfig (constGet "beadbeef") sampleNet sampleExtern
        (Req.mk (Js.obj [("action", Js.str "work_generate"),
          ("hash", Js.str "ABC123")]) Option.none)
      = { resp := Resp.json (Js.obj [("work", Js.str "beadbeef")]), writes := [], calls := [] } :=
  work_cache_hit_short_circuits sampleConfig (constGet "beadbeef") sampleNet sampleExtern
    _ (Js.str "ABC123") "beadbeef" (by decide) (by decide) (by decide) (by decide)
    (by decide) (by decide)

/-! ## C8 — DPoW delegation routing and failure handling -/

/-- C8: with DPoW enabled, a non-overridden work_generate request with a
truthy hash that misses the cache issues exactly one network call — to
the DPoW service with the target hash and the timeout-hint 10 — and in
particular no call to the work upstream; if the delegate fails, the
error string is surfaced as a status-500 response with no cache write,
no retry and no fallback call. -/
theorem dpow_delegation_no_upstream
    (cfg : Config) (get : Js → Option Js) (net : Net) (ext : Extern) (req : Req) (hj : Js)
    (hD : cfg.useDPoW = true)
    (hA : allowedActionOf req.body = some "work_generate")
    (hO : overrideOf req.queryNode = false)
    (hH : jget req.body "hash" = some hj)
    (hT : jsTruthy hj = true)
    (hM : cacheHitTruthy (get hj) = false) :
    (handleNodeApi cfg get net ext req).calls
      = [Call.dpow cfg.dpowUrl cfg.dpowUser cfg.dpowKey hj 10] ∧
    (∀ e, net.dpow = .error e →
      handleNodeApi cfg get net ext req =
        { resp := Resp.error 500 (Js.str e), writes := [],
          calls := [Call.dpow cfg.dpowUrl cfg.dpowUser cfg.dpowKey hj 10] }) := by
  rw [handleNodeApi_work_eq cfg get net ext req hj hA hO hH hT, if_neg (by simp [hM])]
  unfold forwardRequest
  constructor
  · cases hd : net.dpow <;> simp [hd, hD, hH]
  · intro e he
    simp [he, hD, hH]

/-- Witness for `dpow_delegation_no_upstream` on a failing delegate. -/
theorem dpow_delegation_no_upstream_witness :
    (handleNodeApi sampleConfigDpow emptyGet failingNet sampleExtern
        (Req.mk (Js.obj [("action", Js.str "work_generate"),
          ("hash", Js.str "ABC123")]) Option.none)).calls
      = [Call.dpow sampleConfigDpow.dpowUrl sampleConfigDpow.dpowUser
          sampleConfigDpow.dpowKey (Js.str "ABC123") 10] ∧
    (∀ e, failingNet.dpow = .error e →
      handleNodeApi sampleConfigDpow emptyGet failingNet sampleExtern
          (Req.mk (Js.obj [("action", Js.str "work_generate"),
            ("hash", Js.str "ABC123")]) Option.none)
        = { resp := Resp.error 500 (Js.str e), writes := [],
            calls := [Call.dpow sampleConfigDpow.dpowUrl sampleConfigDpow.dpowUser
              sampleConfigDpow.dpowKey (Js.str "ABC123") 10] }) :=
  dpow_delegation_no_upstream sampleConfigDpow emptyGet failingNet sampleExtern
    _ (Js.str "ABC123") (by decide) (by decide) (by decide) (by decide) (by decide) (by decide)

/-! ## C10 — an empty cached string is treated as a miss -/

/-- C10: for a non-overridden work_generate (resp. representatives_online)
request whose cached value under the hash (resp. the representatives
key) is the empty string, the hit test `value && value.length` fails, so
the handler behaves exactly as if that key were absent — the outcome is
unchanged when the empty-string entry is deleted — and it proceeds to
issue a network call (upstream or delegate) instead of returning the
empty cached value. -/
theorem empty_cached_string_treated_as_miss
    (cfg : Config) (get : Js → Option Js) (net : Net) (ext : Extern) (req : Req)
    (hO : overrideOf req.queryNode = false) :
    (∀ hj, allowedActionOf req.body = some "work_generate" →
      jget req.body "hash" = some hj → jsTruthy hj = true →
      get hj = some (Js.str "") →
      handleNodeApi cfg get net ext req
        = handleNodeApi cfg (fun k => if k == hj then Option.none else get k) net ext req ∧
      (handleNodeApi cfg get net ext req).calls ≠ []) ∧
    (allowedActionOf req.body = some "representatives_online" →
      get repCacheKey = some (Js.str "") →
      handleNodeApi cfg get net ext req
        = handleNodeApi cfg (fun k => if k == repCacheKey then Option.none else get k) net ext req ∧
      (handleNodeApi cfg get net ext req).calls ≠ []) := by
  constructor
  · intro hj hA hH hT hG
    have h1 : handleNodeApi cfg get net ext req
        = forwardRequest cfg net ext req "work_generate" false
            (nodeUrlOf cfg req.queryNode) true false := by
      rw [handleNodeApi_work_eq cfg get net ext req hj hA hO hH hT, hG]
      have hmiss : cacheHitTruthy (some (Js.str "")) = false := by decide
      simp [hmiss]
    have h2 : handleNodeApi cfg (fun k => if k == hj then Option.none else get k) net ext req
        = forwardRequest cfg net ext req "work_generate" false
            (nodeUrlOf cfg req.queryNode) true false := by
      rw [handleNodeApi_work_eq cfg (fun k => if k == hj then Option.none else get k)
        net ext req hj hA hO hH hT]
      simp [cacheHitTruthy]
    exact ⟨h1.trans h2.symm, h1 ▸ forwardRequest_calls_ne_nil cfg net ext req _ _ _ _ _⟩
  · intro hA hG
    have h1 : handleNodeApi cfg get net ext req
        = forwardRequest cfg net ext req "representatives_online" false
            (nodeUrlOf cfg req.queryNode) false true := by
      rw [handleNodeApi_reps_eq cfg get net ext req hA hO, hG]
      have hmiss : cacheHitTruthy (some (Js.str "")) = false := by decide
      simp [hmiss]
    have h2 : handleNodeApi cfg (fun k => if k == repCacheKey then Option.none else get k)
        net ext req
        = forwardRequest cfg net ext req "representatives_online" false
            (nodeUrlOf cfg req.queryNode) false true := by
      rw [handleNodeApi_reps_eq cfg (fun k => if k == repCacheKey then Option.none else get k)
        net ext req hA hO]
      simp [cacheHitTruthy]
    exact ⟨h1.trans h2.symm, h1 ▸ forwardRequest_calls_ne_nil cfg net ext req _ _ _ _ _⟩

/-- Witness for `empty_cached_string_treated_as_miss` with an
empty-string cache value for both the work and the representatives
paths. -/
theorem empty_cached_string_treated_as_miss_witness :
    (handleNodeApi sampleConfig (constGet "") sampleNet sampleExtern
        (Req.mk (Js.obj [("action", Js.str "work_generate"), ("hash", Js.str "ABC123")])
          Option.none)
      = handleNodeApi sampleConfig
          (fun k => if k == Js.str "ABC123" then Option.none else constGet "" k)
          sampleNet sampleExtern
          (Req.mk (Js.obj [("action", Js.str "work_generate"), ("hash", Js.str "ABC123")])
            Option.none) ∧
     (handleNodeApi sampleConfig (constGet "") sampleNet sampleExtern
        (Req.mk (Js.obj [("action", Js.str "work_generate"), ("hash", Js.str "ABC123")])
          Option.none)).calls ≠ []) ∧
    (handleNodeApi sampleConfig (constGet "") sampleNet sampleExtern
        (Req.mk (Js.obj [("action", Js.str "representatives_online")]) Option.none)
      = handleNodeApi sampleConfig
          (fun k => if k == repCacheKey then Option.none else constGet "" k)
          sampleNet sampleExtern
          (Req.mk (Js.obj [("action", Js.str "representatives_online")]) Option.none) ∧
     (handleNodeApi sampleConfig (constGet "") sampleNet sampleExtern
        (Req.mk (Js.obj [("action", Js.str "representatives_online")]) Option.none)).calls ≠ []) :=
  ⟨(empty_cached_string_treated_as_miss sampleConfig (constGet "") sampleNet sampleExtern
      _ (by decide)).1 (Js.str "ABC123") (by decide) (by decide) (by decide) (by decide),
   (empty_cached_string_treated_as_miss sampleConfig (constGet "") sampleNet sampleExtern
      _ (by decide)).2 (by decide) (by decide)⟩

/-! ## C4 — write-back of resolved work values (amended part) -/

/-- C4 amended: every successful, non-overridden work_generate
resolution — via the DPoW delegate or via the work upstream — invokes
putCache with the returned work value and NO TTL argument. At such an
invocation the in-memory backend does store the entry, durably and
without expiry (the push completes before the capacity check throws on
the undeclared `memoryCacheLength`), but the redis backend stores
nothing at all: the falsy TTL makes `time || redisCacheTime` throw on
the undeclared `redisCacheTime` before any SET (and redis mode cannot
even start in the shipped source). -/
theorem work_write_carries_no_ttl_argument
    (cfg : Config) (get : Js → Option Js) (net : Net) (ext : Extern) (req : Req) (hj : Js)
    (hA : allowedActionOf req.body = some "work_generate")
    (hO : overrideOf req.queryNode = false)
    (hH : jget req.body "hash" = some hj)
    (hT : jsTruthy hj = true)
    (hM : cacheHitTruthy (get hj) = false) :
    (∀ d wj, cfg.useDPoW = true → net.dpow = .ok d → jsTruthy d = true →
      jget d "work" = some wj → jsTruthy wj = true →
      (handleNodeApi cfg get net ext req).writes = [(hj, wj, Option.none)]) ∧
    (∀ p wj, cfg.useDPoW = false → net.upstream = .ok p → jsTruthy p = true →
      jget p "work" = some wj → jsTruthy wj = true →
      (handleNodeApi cfg get net ext req).writes = [(hj, wj, Option.none)]) ∧
    (∀ (c : List Entry) (k v : Js),
      putCacheMemShipped c k v Option.none
        = (c ++ [Entry.mk k v], some "ReferenceError: memoryCacheLength is not defined")) ∧
    (∀ (s : RedisStore) (k v : Js),
      putCacheRedisShipped s k v Option.none
        = (s, some "ReferenceError: redisCacheTime is not defined")) := by
  have base := handleNodeApi_work_eq cfg get net ext req hj hA hO hH hT
  rw [if_neg (by simp [hM])] at base
  refine ⟨?_, ?_, ?_, ?_⟩
  · intro d wj hD hd htd hw htw
    rw [base]
    unfold forwardRequest
    simp [hD, hd, hH, htd, hw, htw, optTruthy]
  · intro p wj hD hu htp hw htw
    rw [base]
    unfold forwardRequest
    simp [hD, hu, hH, htp, hw, htw, optTruthy]
  · intro c k v
    exact putCacheMemShipped_none c k v
  · intro s k v
    simp [putCacheRedisShipped, ttlTruthy]

/-- Witness for `work_write_carries_no_ttl_argument`: a DPoW resolution,
an upstream resolution, and both shipped backends at the no-TTL write,
all concrete. -/
theorem work_write_carries_no_ttl_argument_witness :
    (handleNodeApi sampleConfigDpow emptyGet sampleNet sampleExtern
        (Req.mk (Js.obj [("action", Js.str "work_generate"), ("hash", Js.str "ABC123")])
          Option.none)).writes
      = [(Js.str "ABC123", Js.str "beef", Option.none)] ∧
    (handleNodeApi sampleConfig emptyGet sampleNet sampleExtern
        (Req.mk (Js.obj [("action", Js.str "work_generate"), ("hash", Js.str "ABC123")])
          Option.none)).writes
      = [(Js.str "ABC123", Js.str "cafe", Option.none)] ∧
    putCacheMemShipped [] (Js.str "ABC123") (Js.str "cafe") Option.none
      = ([Entry.mk (Js.str "ABC123") (Js.str "cafe")],
         some "ReferenceError: memoryCacheLength is not defined") ∧
    putCacheRedisShipped emptyRedis (Js.str "ABC123") (Js.str "cafe") Option.none
      = (emptyRedis, some "ReferenceError: redisCacheTime is not defined") :=
  ⟨(work_write_carries_no_ttl_argument sampleConfigDpow emptyGet sampleNet sampleExtern
      _ (Js.str "ABC123") (by decide) (by decide) (by decide) (by decide) (by decide)).1
      (Js.obj [("work", Js.str "beef")]) (Js.str "beef") (by decide) rfl (by decide)
      (by decide) (by decide),
   (work_write_carries_no_ttl_argument sampleConfig emptyGet sampleNet sampleExtern
      _ (Js.str "ABC123") (by decide) (by decide) (by decide) (by decide) (by decide)).2.1
      (Js.obj [("work", Js.str "cafe")]) (Js.str "cafe") (by decide) rfl (by decide)
      (by decide) (by decide),
   (work_write_carries_no_ttl_argument sampleConfig emptyGet sampleNet sampleExtern
      (Req.mk (Js.obj [("action", Js.str "work_generate"), ("hash", Js.str "ABC123")])
        Option.none) (Js.str "ABC123") (by decide) (by decide) (by decide) (by decide)
      (by decide)).2.2.1 [] (Js.str "ABC123") (Js.str "cafe"),
   (work_write_carries_no_ttl_argument sampleConfig emptyGet sampleNet sampleExtern
      (Req.mk (Js.obj [("action", Js.str "work_generate"), ("hash", Js.str "ABC123")])
        Option.none) (Js.str "ABC123") (by decide) (by decide) (by decide) (by decide)
      (by decide)).2.2.2 emptyRedis (Js.str "ABC123") (Js.str "cafe")⟩

/-! ## C1 — overridden requests: caching is skipped, enrichment is not -/

/-- C1 counterexample: an account_history request carrying a valid
upstream override is still post-processed — the response sent is the
output of the timestamp-enrichment transform, not the raw upstream
response (the enrichment stage of src/index.js lines 137–146 is not
guarded by the override flag). -/
theorem override_response_still_enriched :
    (handleNodeApi sampleConfig emptyGet
        (Net.mk (.ok (Js.str "raw")) (.ok Js.null)) sampleExtern
        (Req.mk (Js.obj [("action", Js.str "account_history")]) (some "http://evil"))).resp
      = Resp.json (Js.str "enriched-history") ∧
    Resp.json (Js.str "enriched-history") ≠ Resp.json (Js.str "raw") := by decide

/-- C1 amended: a POST /api/node-api request carrying a valid upstream
override (query parameter node of length > 4) performs no cache read
(the outcome is independent of the cache contents) and no cache write,
and routes the unmodified body to the override URL; however the upstream
response IS still passed through the timestamp-enrichment stage keyed on
the action before being returned (and an upstream failure is surfaced as
a status-500 error). -/
theorem override_skips_cache_not_enrichment
    (cfg : Config) (get get₂ : Js → Option Js) (net : Net) (ext : Extern) (req : Req)
    (a u : String)
    (hQ : req.queryNode = some u) (hLen : 4 < u.length)
    (hA : allowedActionOf req.body = some a) :
    handleNodeApi cfg get net ext req = handleNodeApi cfg get₂ net ext req ∧
    (handleNodeApi cfg get net ext req).writes = [] ∧
    (handleNodeApi cfg get net ext req).calls = [Call.upstream u req.body] ∧
    (∀ r, net.upstream = .ok r →
      (handleNodeApi cfg get net ext req).resp
        = Resp.json (enrich ext a (jget req.body "hashes") r)) ∧
    (∀ e, net.upstream = .error e →
      (handleNodeApi cfg get net ext req).resp = Resp.error 500 (Js.str e)) := by
  have hu : u.isEmpty = false := by
    cases hbe : u.isEmpty with
    | false => rfl
    | true =>
        have : u = "" := (String.isEmpty_iff u).mp hbe
        rw [this] at hLen
        simp at hLen
  have hO : overrideOf req.queryNode = true := by
    rw [hQ]; simp [overrideOf, hu, hLen]
  have hUrl : nodeUrlOf cfg req.queryNode = u := by
    rw [hQ]; simp [nodeUrlOf, hu, hLen]
  have e1 := handleNodeApi_override_eq cfg get net ext req a hA hO
  have e2 := handleNodeApi_override_eq cfg get₂ net ext req a hA hO
  refine ⟨e1.trans e2.symm, ?_, ?_, ?_, ?_⟩
  · rw [e1]; unfold forwardRequest
    cases hup : net.upstream <;> simp [hup]
  · rw [e1, hUrl]; unfold forwardRequest
    cases hup : net.upstream <;> simp [hup]
  · intro r hup
    rw [e1]; unfold forwardRequest
    simp [hup]
  · intro e hup
    rw [e1]; unfold forwardRequest
    simp [hup]

/-- Witness for `override_skips_cache_not_enrichment` on an overridden
blocks_info request. -/
theorem override_skips_cache_not_enrichment_witness :
    handleNodeApi sampleConfig emptyGet sampleNet sampleExtern
        (Req.mk (Js.obj [("action", Js.str "blocks_info")]) (some "http://evil"))
      = handleNodeApi sampleConfig (constGet "cached") sampleNet sampleExtern
        (Req.mk (Js.obj [("action", Js.str "blocks_info")]) (some "http://evil")) ∧
    (handleNodeApi sampleConfig emptyGet sampleNet sampleExtern
        (Req.mk (Js.obj [("action", Js.str "blocks_info")]) (some "http://evil"))).writes = [] ∧
    (handleNodeApi sampleConfig emptyGet sampleNet sampleExtern
        (Req.mk (Js.obj [("action", Js.str "blocks_info")]) (some "http://evil"))).calls
      = [Call.upstream "http://evil" (Js.obj [("action", Js.str "blocks_info")])] ∧
    (∀ r, sampleNet.upstream = .ok r →
      (handleNodeApi sampleConfig emptyGet sampleNet sampleExtern
          (Req.mk (Js.obj [("action", Js.str "blocks_info")]) (some "http://evil"))).resp
        = Resp.json (enrich sampleExtern "blocks_info"
            (jget (Js.obj [("action", Js.str "blocks_info")]) "hashes") r)) ∧
    (∀ e, sampleNet.upstream = .error e →
      (handleNodeApi sampleConfig emptyGet sampleNet sampleExtern
          (Req.mk (Js.obj [("action", Js.str "blocks_info")]) (some "http://evil"))).resp
        = Resp.error 500 (Js.str e)) :=
  override_skips_cache_not_enrichment sampleConfig emptyGet (constGet "cached") sampleNet
    sampleExtern _ "blocks_info" "http://evil" rfl (by decide) (by decide)

/-! ## C2 — the recommended-representatives read path -/

/-- C2 counterexample: on a cache miss the GET
/api/recommended-representatives handler fetches and caches, but sends
NO HTTP response — the fetched result is only RETURNED from the async
handler (src/index.js line 39), a value Express discards, so the claim
that the fetched result is returned to the client as the HTTP response
fails. -/
theorem recommended_reps_miss_no_response :
    (handleRecommendedReps emptyGet (.ok (Js.arr [Js.str "rep1"])) sampleExtern).resp
      = Resp.none ∧
    Resp.none ≠ Resp.json (Js.arr [Js.str "rep1"]) := by decide

/-- C2 amended: when the cache holds a truthy value under the
recommended-reps key, the handler sends the parsed value as the response
with no write and no network call; on a miss it synchronously runs the
fetch-and-store routine — issuing the directory-service call and, on
success, caching the stringified result for 45 minutes — but sends no
HTTP response to the client (none on fetch failure either). -/
theorem recommended_reps_hit_serves_miss_fetches_silently
    (get : Js → Option Js) (fetch : Except String Js) (ext : Extern) :
    (∀ r, get (Js.str "recommended-reps") = some r → jsTruthy r = true →
      handleRecommendedReps get fetch ext
        = { resp := Resp.json (ext.parse r), writes := [], calls := [] }) ∧
    (get (Js.str "recommended-reps") = Option.none →
      (handleRecommendedReps get fetch ext).resp = Resp.none ∧
      (∀ r, fetch = .ok r →
        handleRecommendedReps get fetch ext
          = { resp := Resp.none
              writes := [(Js.str "recommended-reps", Js.str (ext.stringify r), some (45 * 60))]
              calls := [Call.recommended recommendedUrl] }) ∧
      (∀ e, fetch = .error e →
        handleRecommendedReps get fetch ext
          = { resp := Resp.none, writes := [], calls := [Call.recommended recommendedUrl] })) := by
  constructor
  · intro r hg ht
    unfold handleRecommendedReps
    simp [hg, optTruthy, ht]
  · intro hg
    refine ⟨?_, ?_, ?_⟩
    · unfold handleRecommendedReps
      cases hf : fetch <;> simp [hg, optTruthy, hf]
    · intro r hf
      unfold handleRecommendedReps
      simp [hg, optTruthy, hf]
    · intro e hf
      unfold handleRecommendedReps
      simp [hg, optTruthy, hf]

/-- Witness for `recommended_reps_hit_serves_miss_fetches_silently`: a
concrete cache hit, a concrete successful miss, and a concrete failing
miss. -/
theorem recommended_reps_hit_serves_miss_fetches_silently_witness :
    handleRecommendedReps (constGet "cached-reps") (.ok Js.null) sampleExtern
      = { resp := Resp.json (sampleExtern.parse (Js.str "cached-reps"))
          writes := [], calls := [] } ∧
    (handleRecommendedReps emptyGet (.ok (Js.arr [Js.str "rep1"])) sampleExtern).resp
      = Resp.none ∧
    handleRecommendedReps emptyGet (.ok (Js.arr [Js.str "rep1"])) sampleExtern
      = { resp := Resp.none
          writes := [(Js.str "recommended-reps",
            Js.str (sampleExtern.stringify (Js.arr [Js.str "rep1"])), some (45 * 60))]
          calls := [Call.recommended recommendedUrl] } ∧
    handleRecommendedReps emptyGet (Except.error "offline") sampleExtern
      = { resp := Resp.none, writes := [], calls := [Call.recommended recommendedUrl] } :=
  ⟨(recommended_reps_hit_serves_miss_fetches_silently (constGet "cached-reps")
      (.ok Js.null) sampleExtern).1 (Js.str "cached-reps") rfl (by decide),
   ((recommended_reps_hit_serves_miss_fetches_silently emptyGet
      (.ok (Js.arr [Js.str "rep1"])) sampleExtern).2 rfl).1,
   ((recommended_reps_hit_serves_miss_fetches_silently emptyGet
      (.ok (Js.arr [Js.str "rep1"])) sampleExtern).2 rfl).2.1 (Js.arr [Js.str "rep1"]) rfl,
   ((recommended_reps_hit_serves_miss_fetches_silently emptyGet
      (Except.error "offline") sampleExtern).2 rfl).2.2 "offline" rfl⟩
